import Mathlib

/-!
Verification of the gsuite-wrapper repository's email-body extraction
(`src/mcp_gsuite/gmail.py`), header parsing, account registry
(`src/mcp_gsuite/account_manager.py`) and OAuth callback listeners
(`account_manager.py` and `reauthorize.py`), as a shallow embedding in Lean.

Python dictionaries from the Gmail API are embedded as records with `Option`
fields (a missing key is `none`); Python `str.lower`, truthiness of
`Optional[str]`, and the `or` operator are modelled explicitly; the library
calls `base64.urlsafe_b64decode` / `base64.urlsafe_b64encode` and
`bytes.decode('utf-8')` are modelled as executable Lean functions on
`List Nat` byte sequences.
-/

/-! ## Python semantics helpers -/

/-- Truthiness of a Python `Optional[str]`: `None` and `""` are falsy. -/
def py_truthy : Option String → Bool
  | none => false
  | some s => !(s == "")

/-- Python `a or b` on `Optional[str]` values. -/
def py_or (a b : Option String) : Option String :=
  if py_truthy a then a else b

/-- Python `s.startswith(pre)`. -/
def py_startswith (s pre : String) : Bool :=
  pre.data.isPrefixOf s.data

/-- Python `str.lower` restricted to ASCII letters (header names are ASCII). -/
def ascii_lower_char (c : Char) : Char :=
  if 'A' ≤ c ∧ c ≤ 'Z' then Char.ofNat (c.toNat + 32) else c

/-- Python `str.lower` on a string (ASCII model). -/
def ascii_lower (s : String) : String :=
  String.mk (s.data.map ascii_lower_char)

/-! ## Model of `base64.urlsafe_b64encode` / `base64.urlsafe_b64decode`

Bytes are `Nat`s below 256.  The decoder models CPython's non-strict
`binascii.a2b_base64`: characters outside the base64 alphabet are discarded,
the retained characters must be data characters followed by at most two `=`
padding characters completing a multiple of four, and the unused low bits of
a final partial group are ignored. -/

/-- Characters of the base64 alphabet (both the standard and the urlsafe
variants, since `urlsafe_b64decode` translates `-_` to `+/` and decodes). -/
def is_b64_char (c : Char) : Bool :=
  ('A' ≤ c && c ≤ 'Z') || ('a' ≤ c && c ≤ 'z') || ('0' ≤ c && c ≤ '9') ||
    c = '-' || c = '_' || c = '+' || c = '/'

/-- The urlsafe base64 digit for a 6-bit value. -/
def b64_char (v : Nat) : Char :=
  if v < 26 then Char.ofNat (65 + v)
  else if v < 52 then Char.ofNat (97 + (v - 26))
  else if v < 62 then Char.ofNat (48 + (v - 52))
  else if v = 62 then '-'
  else '_'

/-- The 6-bit value of a base64 digit (callers filter to the alphabet first). -/
def b64_val (c : Char) : Nat :=
  if 'A' ≤ c ∧ c ≤ 'Z' then c.toNat - 65
  else if 'a' ≤ c ∧ c ≤ 'z' then c.toNat - 97 + 26
  else if '0' ≤ c ∧ c ≤ '9' then c.toNat - 48 + 52
  else if c = '-' ∨ c = '+' then 62
  else 63

/-- `base64.urlsafe_b64encode` on a byte list, producing the padded text. -/
def b64_encode_bytes : List Nat → List Char
  | [] => []
  | [a] => [b64_char (a / 4), b64_char (a % 4 * 16), '=', '=']
  | [a, b] => [b64_char (a / 4), b64_char (a % 4 * 16 + b / 16), b64_char (b % 16 * 4), '=']
  | a :: b :: c :: rest =>
    b64_char (a / 4) :: b64_char (a % 4 * 16 + b / 16) :: b64_char (b % 16 * 4 + c / 64)
      :: b64_char (c % 64) :: b64_encode_bytes rest

/-- Decode a list of 6-bit values (the data characters with padding removed)
into bytes; groups are 4 values to 3 bytes, a trailing group of 2 or 3 values
yields 1 or 2 bytes, and a trailing group of 1 value is invalid. -/
def b64_decode_sextets : List Nat → Option (List Nat)
  | [] => some []
  | [v1, v2] => some [v1 * 4 + v2 / 16]
  | [v1, v2, v3] => some [v1 * 4 + v2 / 16, v2 % 16 * 16 + v3 / 4]
  | v1 :: v2 :: v3 :: v4 :: rest =>
    (b64_decode_sextets rest).map
      (fun bs => (v1 * 4 + v2 / 16) :: (v2 % 16 * 16 + v3 / 4) :: (v3 % 4 * 64 + v4) :: bs)
  | _ => none

/-- `base64.urlsafe_b64decode` on the characters of the input string. -/
def b64_decode_chars (cs : List Char) : Option (List Nat) :=
  let kept := cs.filter (fun c => is_b64_char c || c == '=')
  let dataChars := kept.takeWhile (fun c => c != '=')
  let pad := kept.drop dataChars.length
  if pad.all (fun c => c == '=') ∧ (dataChars.length + pad.length) % 4 = 0 ∧ pad.length ≤ 2
  then b64_decode_sextets (dataChars.map b64_val)
  else none

/-! ## Model of UTF-8 encoding (`str.encode`) and strict decoding
(`bytes.decode('utf-8')`) -/

/-- UTF-8 encoding of one unicode scalar value. -/
def utf8_encode_char (c : Char) : List Nat :=
  if c.toNat < 0x80 then [c.toNat]
  else if c.toNat < 0x800 then [0xC0 + c.toNat / 64, 0x80 + c.toNat % 64]
  else if c.toNat < 0x10000 then
    [0xE0 + c.toNat / 4096, 0x80 + c.toNat / 64 % 64, 0x80 + c.toNat % 64]
  else
    [0xF0 + c.toNat / 262144, 0x80 + c.toNat / 4096 % 64, 0x80 + c.toNat / 64 % 64,
      0x80 + c.toNat % 64]

/-- UTF-8 encoding of a string (Python `s.encode('utf-8')`). -/
def utf8_encode (s : String) : List Nat :=
  (s.data.map utf8_encode_char).flatten

/-- One step of strict UTF-8 decoding with a fuel parameter (the fuel only
bounds recursion depth; `utf8_decode_list` below supplies enough fuel that it
never runs out).  Rejects bad lead or continuation bytes, overlong forms,
surrogates and out-of-range code points, like Python `bytes.decode('utf-8')`. -/
def utf8_decode_go : Nat → List Nat → Option (List Char)
  | _, [] => some []
  | 0, _ :: _ => none
  | fuel + 1, b1 :: bs =>
    if b1 < 0x80 then
      (utf8_decode_go fuel bs).map (fun cs => Char.ofNat b1 :: cs)
    else if b1 < 0xC2 then none
    else if b1 < 0xE0 then
      if 0x80 ≤ bs.headI ∧ bs.headI < 0xC0 then
        (utf8_decode_go fuel (bs.drop 1)).map
          (fun cs => Char.ofNat ((b1 - 0xC0) * 64 + (bs.headI - 0x80)) :: cs)
      else none
    else if b1 < 0xF0 then
      if (0x80 ≤ bs.headI ∧ bs.headI < 0xC0) ∧
          (0x80 ≤ (bs.drop 1).headI ∧ (bs.drop 1).headI < 0xC0) then
        if 0x800 ≤ (b1 - 0xE0) * 4096 + (bs.headI - 0x80) * 64 + ((bs.drop 1).headI - 0x80) ∧
            ((b1 - 0xE0) * 4096 + (bs.headI - 0x80) * 64 + ((bs.drop 1).headI - 0x80) < 0xD800 ∨
              0xDFFF < (b1 - 0xE0) * 4096 + (bs.headI - 0x80) * 64 + ((bs.drop 1).headI - 0x80)) then
          (utf8_decode_go fuel (bs.drop 2)).map
            (fun cs =>
              Char.ofNat ((b1 - 0xE0) * 4096 + (bs.headI - 0x80) * 64 + ((bs.drop 1).headI - 0x80))
                :: cs)
        else none
      else none
    else if b1 < 0xF5 then
      if (0x80 ≤ bs.headI ∧ bs.headI < 0xC0) ∧
          (0x80 ≤ (bs.drop 1).headI ∧ (bs.drop 1).headI < 0xC0) ∧
          (0x80 ≤ (bs.drop 2).headI ∧ (bs.drop 2).headI < 0xC0) then
        if 0x10000 ≤ (b1 - 0xF0) * 262144 + (bs.headI - 0x80) * 4096 +
              ((bs.drop 1).headI - 0x80) * 64 + ((bs.drop 2).headI - 0x80) ∧
            (b1 - 0xF0) * 262144 + (bs.headI - 0x80) * 4096 +
              ((bs.drop 1).headI - 0x80) * 64 + ((bs.drop 2).headI - 0x80) < 0x110000 then
          (utf8_decode_go fuel (bs.drop 3)).map
            (fun cs =>
              Char.ofNat ((b1 - 0xF0) * 262144 + (bs.headI - 0x80) * 4096 +
                ((bs.drop 1).headI - 0x80) * 64 + ((bs.drop 2).headI - 0x80)) :: cs)
        else none
      else none
    else none

/-- Strict UTF-8 decoding of a byte list (Python `bytes.decode('utf-8')`). -/
def utf8_decode_list (l : List Nat) : Option (List Char) :=
  utf8_decode_go l.length l

/-! ## Round-trip lemmas for the codec models -/

theorem b64_char_spec : ∀ v, v < 64 →
    b64_val (b64_char v) = v ∧ is_b64_char (b64_char v) = true ∧ (b64_char v == '=') = false := by
  decide

theorem utf8_encode_char_lt (c : Char) : ∀ b ∈ utf8_encode_char c, b < 256 := by
  intro b hb
  have hv : c.toNat < 0xd800 ∨ (0xdfff < c.toNat ∧ c.toNat < 0x110000) := c.valid
  have hlt : c.toNat < 0x110000 := by omega
  unfold utf8_encode_char at hb
  split at hb
  · simp at hb
    omega
  · split at hb
    · simp at hb
      rcases hb with h | h <;> omega
    · split at hb
      · simp at hb
        rcases hb with h | h | h <;> omega
      · simp at hb
        rcases hb with h | h | h | h <;> omega

theorem utf8_encode_char_ne_nil (c : Char) : utf8_encode_char c ≠ [] := by
  unfold utf8_encode_char
  split
  · simp
  · split
    · simp
    · split <;> simp

theorem utf8_encode_lt (s : String) : ∀ b ∈ utf8_encode s, b < 256 := by
  intro b hb
  unfold utf8_encode at hb
  rw [List.mem_flatten] at hb
  obtain ⟨l, hl, hbl⟩ := hb
  rw [List.mem_map] at hl
  obtain ⟨c, _, rfl⟩ := hl
  exact utf8_encode_char_lt c b hbl

theorem utf8_decode_go_canon : ∀ f : Nat, ∀ l : List Nat,
    l.length ≤ f → utf8_decode_go f l = utf8_decode_go l.length l := by
  intro f
  induction f using Nat.strong_induction_on with
  | _ f ih =>
    intro l h1
    cases l with
    | nil => cases f <;> rfl
    | cons b1 bs =>
      simp only [List.length_cons] at h1 ⊢
      cases f with
      | zero => omega
      | succ fp =>
        rw [utf8_decode_go, utf8_decode_go]
        have hrec : ∀ k : Nat, utf8_decode_go fp (bs.drop k) = utf8_decode_go bs.length (bs.drop k) := by
          intro k
          have hl : (bs.drop k).length ≤ bs.length := by
            simp [List.length_drop]
          have e1 := ih fp (by omega) (bs.drop k) (by omega)
          have e2 := ih bs.length (by omega) (bs.drop k) (by omega)
          rw [e1, e2]
        have hbs : utf8_decode_go fp bs = utf8_decode_go bs.length bs := by
          have := hrec 0
          simpa using this
        split
        · rw [hbs]
        · split
          · rfl
          · split
            · split
              · rw [hrec 1]
              · rfl
            · split
              · split
                · split
                  · rw [hrec 2]
                  · rfl
                · rfl
              · split
                · split
                  · split
                    · rw [hrec 3]
                    · rfl
                  · rfl
                · rfl

theorem utf8_decode_list_cons1 (b1 : Nat) (h : b1 < 0x80) (rest : List Nat) :
    utf8_decode_list (b1 :: rest) = (utf8_decode_list rest).map (fun cs => Char.ofNat b1 :: cs) := by
  unfold utf8_decode_list
  rw [List.length_cons, utf8_decode_go]
  rw [if_pos h]

theorem utf8_decode_list_cons2 (b1 b2 : Nat) (h1 : 0xC2 ≤ b1) (h2 : b1 < 0xE0)
    (h3 : 0x80 ≤ b2) (h4 : b2 < 0xC0) (rest : List Nat) :
    utf8_decode_list (b1 :: b2 :: rest) =
      (utf8_decode_list rest).map (fun cs => Char.ofNat ((b1 - 0xC0) * 64 + (b2 - 0x80)) :: cs) := by
  unfold utf8_decode_list
  rw [List.length_cons, utf8_decode_go]
  simp only [List.headI, List.drop_succ_cons, List.drop_zero]
  rw [if_neg (by omega), if_neg (by omega), if_pos (by omega), if_pos (by omega)]
  rw [utf8_decode_go_canon (b2 :: rest).length rest (by simp)]

theorem utf8_decode_list_cons3 (b1 b2 b3 : Nat) (h1 : 0xE0 ≤ b1) (h2 : b1 < 0xF0)
    (h3 : 0x80 ≤ b2) (h4 : b2 < 0xC0) (h5 : 0x80 ≤ b3) (h6 : b3 < 0xC0)
    (hn1 : 0x800 ≤ (b1 - 0xE0) * 4096 + (b2 - 0x80) * 64 + (b3 - 0x80))
    (hn2 : (b1 - 0xE0) * 4096 + (b2 - 0x80) * 64 + (b3 - 0x80) < 0xD800 ∨
      0xDFFF < (b1 - 0xE0) * 4096 + (b2 - 0x80) * 64 + (b3 - 0x80)) (rest : List Nat) :
    utf8_decode_list (b1 :: b2 :: b3 :: rest) =
      (utf8_decode_list rest).map
        (fun cs => Char.ofNat ((b1 - 0xE0) * 4096 + (b2 - 0x80) * 64 + (b3 - 0x80)) :: cs) := by
  unfold utf8_decode_list
  rw [List.length_cons, utf8_decode_go]
  simp only [List.headI, List.drop_succ_cons, List.drop_zero]
  rw [if_neg (by omega), if_neg (by omega), if_neg (by omega), if_pos (by omega)]
  rw [if_pos (by exact ⟨⟨h3, h4⟩, h5, h6⟩), if_pos (by exact ⟨hn1, hn2⟩)]
  rw [utf8_decode_go_canon (b2 :: b3 :: rest).length rest (by simp; omega)]

theorem utf8_decode_list_cons4 (b1 b2 b3 b4 : Nat) (h1 : 0xF0 ≤ b1) (h2 : b1 < 0xF5)
    (h3 : 0x80 ≤ b2) (h4 : b2 < 0xC0) (h5 : 0x80 ≤ b3) (h6 : b3 < 0xC0)
    (h7 : 0x80 ≤ b4) (h8 : b4 < 0xC0)
    (hn1 : 0x10000 ≤ (b1 - 0xF0) * 262144 + (b2 - 0x80) * 4096 + (b3 - 0x80) * 64 + (b4 - 0x80))
    (hn2 : (b1 - 0xF0) * 262144 + (b2 - 0x80) * 4096 + (b3 - 0x80) * 64 + (b4 - 0x80) < 0x110000)
    (rest : List Nat) :
    utf8_decode_list (b1 :: b2 :: b3 :: b4 :: rest) =
      (utf8_decode_list rest).map
        (fun cs =>
          Char.ofNat ((b1 - 0xF0) * 262144 + (b2 - 0x80) * 4096 + (b3 - 0x80) * 64 + (b4 - 0x80))
            :: cs) := by
  unfold utf8_decode_list
  rw [List.length_cons, utf8_decode_go]
  simp only [List.headI, List.drop_succ_cons, List.drop_zero]
  rw [if_neg (by omega), if_neg (by omega), if_neg (by omega), if_neg (by omega),
    if_pos (by omega)]
  rw [if_pos (by exact ⟨⟨h3, h4⟩, ⟨h5, h6⟩, h7, h8⟩), if_pos (by exact ⟨hn1, hn2⟩)]
  rw [utf8_decode_go_canon (b2 :: b3 :: b4 :: rest).length rest (by simp; omega)]

theorem utf8_decode_encode_char (c : Char) (rest : List Nat) :
    utf8_decode_list (utf8_encode_char c ++ rest) =
      (utf8_decode_list rest).map (fun cs => c :: cs) := by
  have hv : c.toNat < 0xd800 ∨ (0xdfff < c.toNat ∧ c.toNat < 0x110000) := c.valid
  by_cases h1 : c.toNat < 0x80
  · have he : utf8_encode_char c = [c.toNat] := by
      unfold utf8_encode_char
      rw [if_pos h1]
    rw [he, List.cons_append, List.nil_append, utf8_decode_list_cons1 _ h1, Char.ofNat_toNat]
  · by_cases h2 : c.toNat < 0x800
    · have he : utf8_encode_char c = [0xC0 + c.toNat / 64, 0x80 + c.toNat % 64] := by
        unfold utf8_encode_char
        rw [if_neg h1, if_pos h2]
      rw [he]
      show utf8_decode_list ((0xC0 + c.toNat / 64) :: (0x80 + c.toNat % 64) :: rest) = _
      rw [utf8_decode_list_cons2 _ _ (by omega) (by omega) (by omega) (by omega)]
      have hn : (0xC0 + c.toNat / 64 - 0xC0) * 64 + (0x80 + c.toNat % 64 - 0x80) = c.toNat := by
        omega
      rw [hn, Char.ofNat_toNat]
    · by_cases h3 : c.toNat < 0x10000
      · have he : utf8_encode_char c =
            [0xE0 + c.toNat / 4096, 0x80 + c.toNat / 64 % 64, 0x80 + c.toNat % 64] := by
          unfold utf8_encode_char
          rw [if_neg h1, if_neg h2, if_pos h3]
        rw [he]
        show utf8_decode_list
          ((0xE0 + c.toNat / 4096) :: (0x80 + c.toNat / 64 % 64) :: (0x80 + c.toNat % 64) :: rest)
            = _
        rw [utf8_decode_list_cons3 _ _ _ (by omega) (by omega) (by omega) (by omega) (by omega)
          (by omega) (by omega) (by omega)]
        have hn : (0xE0 + c.toNat / 4096 - 0xE0) * 4096 + (0x80 + c.toNat / 64 % 64 - 0x80) * 64
            + (0x80 + c.toNat % 64 - 0x80) = c.toNat := by
          omega
        rw [hn, Char.ofNat_toNat]
      · have h4 : c.toNat < 0x110000 := by omega
        have he : utf8_encode_char c =
            [0xF0 + c.toNat / 262144, 0x80 + c.toNat / 4096 % 64,
              0x80 + c.toNat / 64 % 64, 0x80 + c.toNat % 64] := by
          unfold utf8_encode_char
          rw [if_neg h1, if_neg h2, if_neg h3]
        rw [he]
        show utf8_decode_list
          ((0xF0 + c.toNat / 262144) :: (0x80 + c.toNat / 4096 % 64)
            :: (0x80 + c.toNat / 64 % 64) :: (0x80 + c.toNat % 64) :: rest) = _
        rw [utf8_decode_list_cons4 _ _ _ _ (by omega) (by omega) (by omega) (by omega) (by omega)
          (by omega) (by omega) (by omega) (by omega) (by omega)]
        have hn : (0xF0 + c.toNat / 262144 - 0xF0) * 262144 + (0x80 + c.toNat / 4096 % 64 - 0x80) * 4096
            + (0x80 + c.toNat / 64 % 64 - 0x80) * 64 + (0x80 + c.toNat % 64 - 0x80) = c.toNat := by
          omega
        rw [hn, Char.ofNat_toNat]

theorem utf8_decode_encode (cs : List Char) :
    utf8_decode_list ((cs.map utf8_encode_char).flatten) = some cs := by
  induction cs with
  | nil => rfl
  | cons c cs ih =>
    rw [List.map_cons, List.flatten_cons, utf8_decode_encode_char, ih]
    rfl

theorem b64_encode_decomp : ∀ n : Nat, ∀ bs : List Nat, bs.length ≤ n → (∀ b ∈ bs, b < 256) →
    ∃ dc pc : List Char,
      b64_encode_bytes bs = dc ++ pc ∧
      (∀ c ∈ dc, (is_b64_char c || c == '=') = true) ∧
      (∀ c ∈ dc, (c != '=') = true) ∧
      (∀ c ∈ pc, c = '=') ∧
      pc.length ≤ 2 ∧
      (dc.length + pc.length) % 4 = 0 ∧
      b64_decode_sextets (dc.map b64_val) = some bs := by
  intro n
  induction n using Nat.strong_induction_on with
  | _ n ih =>
    intro bs hlen hb
    rcases bs with _ | ⟨a, _ | ⟨b, _ | ⟨c, rest⟩⟩⟩
    · exact ⟨[], [], rfl, by simp, by simp, by simp, by simp, by simp, rfl⟩
    · have ha : a < 256 := hb a (by simp)
      have s1 := b64_char_spec (a / 4) (by omega)
      have s2 := b64_char_spec (a % 4 * 16) (by omega)
      refine ⟨[b64_char (a / 4), b64_char (a % 4 * 16)], ['=', '='], rfl, ?_, ?_, by decide,
        by decide, by simp, ?_⟩
      · simp only [List.forall_mem_cons]
        refine ⟨by simp [s1.2.1], by simp [s2.2.1], by simp⟩
      · simp only [List.forall_mem_cons]
        refine ⟨by simp [bne, s1.2.2], by simp [bne, s2.2.2], by simp⟩
      · rw [List.map_cons, List.map_cons, List.map_nil, s1.1, s2.1]
        show some [a / 4 * 4 + a % 4 * 16 / 16] = some [a]
        simp only [Option.some.injEq, List.cons.injEq, and_true]
        omega
    · have ha : a < 256 := hb a (by simp)
      have hbb : b < 256 := hb b (by simp)
      have s1 := b64_char_spec (a / 4) (by omega)
      have s2 := b64_char_spec (a % 4 * 16 + b / 16) (by omega)
      have s3 := b64_char_spec (b % 16 * 4) (by omega)
      refine ⟨[b64_char (a / 4), b64_char (a % 4 * 16 + b / 16), b64_char (b % 16 * 4)], ['='],
        rfl, ?_, ?_, by decide, by decide, by simp, ?_⟩
      · simp only [List.forall_mem_cons]
        refine ⟨by simp [s1.2.1], by simp [s2.2.1], by simp [s3.2.1], by simp⟩
      · simp only [List.forall_mem_cons]
        refine ⟨by simp [bne, s1.2.2], by simp [bne, s2.2.2], by simp [bne, s3.2.2], by simp⟩
      · rw [List.map_cons, List.map_cons, List.map_cons, List.map_nil, s1.1, s2.1, s3.1]
        show some [a / 4 * 4 + (a % 4 * 16 + b / 16) / 16,
          (a % 4 * 16 + b / 16) % 16 * 16 + b % 16 * 4 / 4] = some [a, b]
        simp only [Option.some.injEq, List.cons.injEq, and_true]
        constructor <;> omega
    · have ha : a < 256 := hb a (by simp)
      have hbb : b < 256 := hb b (by simp)
      have hc : c < 256 := hb c (by simp)
      have hrest : ∀ x ∈ rest, x < 256 := by
        intro x hx
        exact hb x (by simp [hx])
      have hlen2 : rest.length ≤ n - 3 := by
        simp only [List.length_cons] at hlen
        omega
      have hn3 : n - 3 < n := by
        simp only [List.length_cons] at hlen
        omega
      obtain ⟨dc, pc, he, hd1, hd2, hp1, hp2, hmod, hdec⟩ := ih (n - 3) hn3 rest hlen2 hrest
      have s1 := b64_char_spec (a / 4) (by omega)
      have s2 := b64_char_spec (a % 4 * 16 + b / 16) (by omega)
      have s3 := b64_char_spec (b % 16 * 4 + c / 64) (by omega)
      have s4 := b64_char_spec (c % 64) (by omega)
      refine ⟨b64_char (a / 4) :: b64_char (a % 4 * 16 + b / 16) :: b64_char (b % 16 * 4 + c / 64)
        :: b64_char (c % 64) :: dc, pc, ?_, ?_, ?_, hp1, hp2, ?_, ?_⟩
      · rw [b64_encode_bytes, he]
        rfl
      · simp only [List.forall_mem_cons]
        exact ⟨by simp [s1.2.1], by simp [s2.2.1], by simp [s3.2.1], by simp [s4.2.1], hd1⟩
      · simp only [List.forall_mem_cons]
        exact ⟨by simp [bne, s1.2.2], by simp [bne, s2.2.2], by simp [bne, s3.2.2],
          by simp [bne, s4.2.2], hd2⟩
      · simp only [List.length_cons]
        omega
      · rw [List.map_cons, List.map_cons, List.map_cons, List.map_cons,
          s1.1, s2.1, s3.1, s4.1]
        rw [show ∀ v1 v2 v3 v4 vs, b64_decode_sextets (v1 :: v2 :: v3 :: v4 :: vs) =
          (b64_decode_sextets vs).map
            (fun l => (v1 * 4 + v2 / 16) :: (v2 % 16 * 16 + v3 / 4) :: (v3 % 4 * 64 + v4) :: l)
          from fun _ _ _ _ _ => rfl]
        rw [hdec]
        show some _ = some (a :: b :: c :: rest)
        simp only [Option.some.injEq, List.cons.injEq]
        refine ⟨by omega, by omega, by omega, trivial⟩

theorem takeWhile_append_stop (p : Char → Bool) (l1 l2 : List Char)
    (h1 : ∀ a ∈ l1, p a = true) (h2 : l2.takeWhile p = []) :
    (l1 ++ l2).takeWhile p = l1 := by
  induction l1 with
  | nil => simpa using h2
  | cons a l ih =>
    rw [List.cons_append, List.takeWhile_cons, h1 a (by simp)]
    rw [ih (fun x hx => h1 x (by simp [hx]))]
    rfl

theorem b64_decode_encode (bs : List Nat) (hb : ∀ b ∈ bs, b < 256) :
    b64_decode_chars (b64_encode_bytes bs) = some bs := by
  obtain ⟨dc, pc, he, hd1, hd2, hp1, hp2, hmod, hdec⟩ :=
    b64_encode_decomp bs.length bs (Nat.le_refl _) hb
  rw [he]
  have hkept : (dc ++ pc).filter (fun c => is_b64_char c || c == '=') = dc ++ pc := by
    rw [List.filter_eq_self]
    intro a ha
    rcases List.mem_append.mp ha with h | h
    · exact hd1 a h
    · rw [hp1 a h]
      simp
  have htake : (dc ++ pc).takeWhile (fun c => c != '=') = dc := by
    refine takeWhile_append_stop _ _ _ hd2 ?_
    cases pc with
    | nil => rfl
    | cons c cs =>
      rw [List.takeWhile_cons, hp1 c (by simp)]
      rfl
  have hpad : ∀ c ∈ pc, (fun c => c == '=') c = true := by
    intro c hc
    rw [hp1 c hc]
    rfl
  show b64_decode_chars (dc ++ pc) = some bs
  unfold b64_decode_chars
  simp only [hkept, htake, List.drop_left]
  rw [if_pos ⟨List.all_eq_true.mpr hpad, hmod, hp2⟩]
  exact hdec

/-! ## The body-data decoder (`GmailEmail._decode_body_data`) -/

/-- `base64.urlsafe_b64encode(bytes).decode()` as a string producer (used to
state the round-trip property; the repository itself encodes outgoing mail
this way). -/
def b64_encode_string (bs : List Nat) : String :=
  String.mk (b64_encode_bytes bs)

/-- `base64.urlsafe_b64decode(s).decode('utf-8')`, with `none` for any raised
decoding error. -/
def utf8_b64_decode (s : String) : Option String :=
  match b64_decode_chars s.data with
  | none => none
  | some bs =>
    match utf8_decode_list bs with
    | none => none
    | some cs => some (String.mk cs)

/-- `GmailEmail._decode_body_data`: `None` input and falsy (empty) input give
`None`; otherwise decode, with any exception swallowed to `None`. -/
def decode_body_data (d : Option String) : Option String :=
  match d with
  | none => none
  | some s => if s = "" then none else utf8_b64_decode s

theorem b64_encode_bytes_ne_nil (bs : List Nat) (h : bs ≠ []) : b64_encode_bytes bs ≠ [] := by
  rcases bs with _ | ⟨a, _ | ⟨b, _ | ⟨c, rest⟩⟩⟩
  · exact absurd rfl h
  · simp [b64_encode_bytes]
  · simp [b64_encode_bytes]
  · simp [b64_encode_bytes]

theorem utf8_encode_ne_nil (s : String) (h : s ≠ "") : utf8_encode s ≠ [] := by
  cases s with
  | mk l =>
    cases l with
    | nil => exact absurd rfl h
    | cons c cs =>
      show ((List.map utf8_encode_char (c :: cs)).flatten) ≠ []
      rw [List.map_cons, List.flatten_cons]
      intro hc
      rcases List.append_eq_nil.mp hc with ⟨h1, _⟩
      exact utf8_encode_char_ne_nil c h1

theorem decode_body_data_roundtrip (s : String) (hs : s ≠ "") :
    decode_body_data (some (b64_encode_string (utf8_encode s))) = some s := by
  have hne : b64_encode_string (utf8_encode s) ≠ "" := by
    intro hc
    apply b64_encode_bytes_ne_nil (utf8_encode s) (utf8_encode_ne_nil s hs)
    simpa using congrArg String.data hc
  show (if b64_encode_string (utf8_encode s) = "" then none
    else utf8_b64_decode (b64_encode_string (utf8_encode s))) = some s
  rw [if_neg hne]
  unfold utf8_b64_decode
  rw [show (b64_encode_string (utf8_encode s)).data = b64_encode_bytes (utf8_encode s) from rfl]
  rw [b64_decode_encode (utf8_encode s) (utf8_encode_lt s)]
  show (match utf8_decode_list (utf8_encode s) with
    | none => none
    | some cs => some (String.mk cs)) = some s
  unfold utf8_encode
  rw [utf8_decode_encode]

/-! ## Data model of the Gmail API payload and `GmailEmail` -/

/-- A part's `body` object: optional base64url `data` and optional
`attachmentId`. -/
structure PartBody where
  data : Option String
  attachmentId : Option String
deriving DecidableEq

/-- One entry of a payload's `headers` list. -/
structure Header where
  name : Option String
  value : Option String
deriving DecidableEq

/-- A Gmail payload tree node: `mimeType`, optional `body`, `partId`,
`filename`, `headers` and child `parts`. -/
inductive Payload where
  | node (mimeType : Option String) (body : Option PartBody) (partId : Option String)
      (filename : Option String) (headers : List Header) (parts : List Payload)

/-- `payload.get('mimeType')`. -/
def Payload.mime : Payload → Option String
  | .node mt _ _ _ _ _ => mt

/-- `payload.get('body', {}).get('data')`. -/
def Payload.bodyData : Payload → Option String
  | .node _ b _ _ _ _ => b.bind (fun x => x.data)

/-- `payload.get('body')`. -/
def Payload.bodyObj : Payload → Option PartBody
  | .node _ b _ _ _ _ => b

/-- `payload.get('partId')` (`payload['partId']` raises when `none`). -/
def Payload.partId : Payload → Option String
  | .node _ _ pid _ _ _ => pid

/-- `payload.get('filename')`. -/
def Payload.fname : Payload → Option String
  | .node _ _ _ fn _ _ => fn

/-- `payload.get('headers', [])`. -/
def Payload.hdrs : Payload → List Header
  | .node _ _ _ _ hd _ => hd

/-- `payload.get('parts', [])`. -/
def Payload.parts : Payload → List Payload
  | .node _ _ _ _ _ ps => ps

/-- `GmailAttachment` dataclass. -/
structure GmailAttachment where
  filename : String
  mime_type : String
  attachment_id : String
  part_id : String
deriving DecidableEq

/-- `GmailEmail` dataclass; every API-derived field is optional because the
constructor fills them with `dict.get` results. -/
structure GmailEmail where
  id : Option String
  thread_id : Option String
  history_id : Option String
  internal_date : Option String
  size_estimate : Option Int
  label_ids : List String
  snippet : Option String
  subject : Option String
  from_email : Option String
  to_email : Option String
  cc : Option String
  bcc : Option String
  message_id : Option String
  in_reply_to : Option String
  references : Option String
  delivered_to : Option String
  body_html : Option String
  body_plain : Option String
  body : Option String
  mime_type : Option String
  attachments : List (String × GmailAttachment)
deriving DecidableEq

/-- A raw Gmail API message object (`txt` in `from_api_response`). -/
structure RawMessage where
  id : Option String
  threadId : Option String
  historyId : Option String
  internalDate : Option String
  sizeEstimate : Option Int
  labelIds : Option (List String)
  snippet : Option String
  payload : Option Payload

/-- A payload acting as `{}` (`txt.get('payload', {})`). -/
def empty_payload : Payload :=
  .node none none none none [] []

/-! ## The MIME body resolver (`GmailEmail` class methods) -/

/-- `GmailEmail._find_text_plain_body`: first `text/plain` part whose decoded
body is truthy. -/
def find_text_plain_body : List Payload → Option String
  | [] => none
  | part :: ps =>
    if part.mime = some "text/plain" then
      let b := decode_body_data part.bodyData
      if py_truthy b then b else find_text_plain_body ps
    else find_text_plain_body ps

/-- `GmailEmail._find_text_html_body`: first `text/html` part whose decoded
body is truthy. -/
def find_text_html_body : List Payload → Option String
  | [] => none
  | part :: ps =>
    if part.mime = some "text/html" then
      let b := decode_body_data part.bodyData
      if py_truthy b then b else find_text_html_body ps
    else find_text_html_body ps

mutual

/-- `GmailEmail._extract_nested_body`: body of a nested payload, preferring
plain, then html, then deeper nesting. -/
def extract_nested_body : Payload → Option String
  | .node mt b _ _ _ parts =>
    if mt = some "text/plain" ∨ mt = some "text/html" then
      decode_body_data (b.bind (fun x => x.data))
    else if py_startswith (mt.getD "") "multipart/" then
      py_or (find_text_plain_body parts)
        (py_or (find_text_html_body parts) (find_nested_body parts))
    else none

/-- `GmailEmail._find_nested_body`: scan parts for a multipart child whose
nested extraction is truthy. -/
def find_nested_body : List Payload → Option String
  | [] => none
  | p :: ps =>
    if py_startswith (p.mime.getD "") "multipart/" then
      let r := extract_nested_body p
      if py_truthy r then r else find_nested_body ps
    else find_nested_body ps

end

/-- `GmailEmail._find_fallback_body`: decode the first part's body data when
both the `body` object and its `data` key are present. -/
def find_fallback_body : List Payload → Option String
  | [] => none
  | p :: _ =>
    match p.bodyObj with
    | none => none
    | some b =>
      match b.data with
      | none => none
      | some d => decode_body_data (some d)

/-- `GmailEmail._extract_and_set_body`. -/
def extract_and_set_body (e : GmailEmail) (p : Payload) : GmailEmail :=
  if p.mime = some "text/plain" then
    let bp := decode_body_data p.bodyData
    { e with body_plain := bp, body := bp, mime_type := some "text/plain" }
  else if p.mime = some "text/html" then
    let bh := decode_body_data p.bodyData
    { e with body_html := bh, body := bh, mime_type := some "text/html" }
  else if py_startswith (p.mime.getD "") "multipart/" then
    let bh := find_text_html_body p.parts
    let bp := find_text_plain_body p.parts
    let chosen :=
      if p.mime = some "multipart/alternative" then
        py_or bh (py_or bp (py_or (find_nested_body p.parts) (find_fallback_body p.parts)))
      else
        py_or bp (py_or bh (py_or (find_nested_body p.parts) (find_fallback_body p.parts)))
    let e1 := { e with body_html := bh, body_plain := bp, body := chosen }
    if py_truthy chosen then
      { e1 with mime_type :=
          if chosen = bh then some "text/html"
          else if chosen = bp then some "text/plain"
          else p.mime }
    else e1
  else e

/-! ## Spec-side resolver definitions

These follow the wording of the specification ("scan immediate children in
order; first child whose type is `text/html` supplies `body_html` …";
"recursively searching children that are themselves multipart, depth-first,
first match wins, preferring plain-then-html at each nested level") and are
compared against the source-derived functions above. -/

/-- Spec wording: the first immediate child of the given MIME type whose data
decodes to a usable (non-empty) body. -/
def spec_first_decodable (mt : String) : List Payload → Option String
  | [] => none
  | p :: ps =>
    if p.mime = some mt ∧ py_truthy (decode_body_data p.bodyData) then
      decode_body_data p.bodyData
    else spec_first_decodable mt ps

mutual

/-- Spec wording: the body found at one nested level — prefer a decodable
plain child, then a decodable html child, then recurse deeper. -/
def spec_node_body : Payload → Option String
  | .node _ _ _ _ _ parts =>
    match spec_first_decodable "text/plain" parts with
    | some b => some b
    | none =>
      match spec_first_decodable "text/html" parts with
      | some b => some b
      | none => spec_nested_search parts

/-- Spec wording: depth-first search over the children that are themselves
multipart; the first match wins. -/
def spec_nested_search : List Payload → Option String
  | [] => none
  | p :: ps =>
    if py_startswith (p.mime.getD "") "multipart/" then
      match spec_node_body p with
      | some b => some b
      | none => spec_nested_search ps
    else spec_nested_search ps

end

/-! ## Truthiness facts and the code-vs-spec equivalence of the resolver -/

theorem py_or_truthy (a b : Option String) (h : py_truthy a = true) : py_or a b = a := by
  unfold py_or
  rw [if_pos h]

theorem py_or_falsy (a b : Option String) (h : py_truthy a = false) : py_or a b = b := by
  unfold py_or
  rw [h]
  rfl

theorem py_truthy_some (s : String) (h : s ≠ "") : py_truthy (some s) = true := by
  simp [py_truthy, h]

theorem py_truthy_none : py_truthy none = false := rfl

theorem find_text_plain_truthy (ps : List Payload) (s : String)
    (h : find_text_plain_body ps = some s) : s ≠ "" := by
  induction ps with
  | nil => simp [find_text_plain_body] at h
  | cons p ps ih =>
    rw [find_text_plain_body] at h
    split at h
    · dsimp only at h
      split at h
      · rename_i ht
        rw [h] at ht
        simp [py_truthy] at ht
        intro hc
        exact ht hc
      · exact ih h
    · exact ih h

theorem find_text_html_truthy (ps : List Payload) (s : String)
    (h : find_text_html_body ps = some s) : s ≠ "" := by
  induction ps with
  | nil => simp [find_text_html_body] at h
  | cons p ps ih =>
    rw [find_text_html_body] at h
    split at h
    · dsimp only at h
      split at h
      · rename_i ht
        rw [h] at ht
        simp [py_truthy] at ht
        intro hc
        exact ht hc
      · exact ih h
    · exact ih h

theorem find_nested_truthy (ps : List Payload) (s : String)
    (h : find_nested_body ps = some s) : s ≠ "" := by
  induction ps with
  | nil => simp [find_nested_body] at h
  | cons p ps ih =>
    rw [find_nested_body] at h
    split at h
    · dsimp only at h
      split at h
      · rename_i ht
        rw [h] at ht
        simp [py_truthy] at ht
        intro hc
        exact ht hc
      · exact ih h
    · exact ih h

theorem py_truthy_iff_isSome (o : Option String) (hne : ∀ s, o = some s → s ≠ "") :
    py_truthy o = true ↔ o.isSome = true := by
  cases o with
  | none => simp [py_truthy]
  | some s =>
    have := hne s rfl
    simp [py_truthy, this]

theorem find_text_plain_eq_spec (ps : List Payload) :
    find_text_plain_body ps = spec_first_decodable "text/plain" ps := by
  induction ps with
  | nil => rfl
  | cons p ps ih =>
    rw [find_text_plain_body, spec_first_decodable]
    by_cases hm : p.mime = some "text/plain"
    · simp only [hm, if_pos, true_and]
      by_cases ht : py_truthy (decode_body_data p.bodyData)
      · simp [ht]
      · simp [ht, ih]
    · simp [hm, ih]

theorem find_text_html_eq_spec (ps : List Payload) :
    find_text_html_body ps = spec_first_decodable "text/html" ps := by
  induction ps with
  | nil => rfl
  | cons p ps ih =>
    rw [find_text_html_body, spec_first_decodable]
    by_cases hm : p.mime = some "text/html"
    · simp only [hm, if_pos, true_and]
      by_cases ht : py_truthy (decode_body_data p.bodyData)
      · simp [ht]
      · simp [ht, ih]
    · simp [hm, ih]

theorem spec_first_decodable_truthy (mt : String) (ps : List Payload) (s : String)
    (h : spec_first_decodable mt ps = some s) : s ≠ "" := by
  induction ps with
  | nil => simp [spec_first_decodable] at h
  | cons p ps ih =>
    rw [spec_first_decodable] at h
    split at h
    · rename_i hcond
      rw [h] at hcond
      simp [py_truthy] at hcond
      intro hc
      exact hcond.2 hc
    · exact ih h

theorem py_or_ne_empty (a b : Option String) (ha : ∀ s, a = some s → s ≠ "")
    (hb : ∀ s, b = some s → s ≠ "") : ∀ s, py_or a b = some s → s ≠ "" := by
  intro s h
  unfold py_or at h
  split at h
  · exact ha s h
  · exact hb s h

theorem mime_multipart_not_text (mt : Option String)
    (hmp : py_startswith (mt.getD "") "multipart/" = true) :
    ¬(mt = some "text/plain" ∨ mt = some "text/html") := by
  rintro (rfl | rfl) <;> simp [py_startswith] at hmp

theorem extract_nested_truthy (p : Payload)
    (hmp : py_startswith (p.mime.getD "") "multipart/" = true) (s : String)
    (h : extract_nested_body p = some s) : s ≠ "" := by
  cases p with
  | node mt b pid fn hd parts =>
    simp only [Payload.mime] at hmp
    rw [extract_nested_body] at h
    rw [if_neg (mime_multipart_not_text mt hmp), if_pos hmp] at h
    refine py_or_ne_empty _ _ (find_text_plain_truthy parts) ?_ s h
    exact py_or_ne_empty _ _ (find_text_html_truthy parts) (find_nested_truthy parts)

theorem nested_search_code_eq_spec : ∀ n : Nat,
    (∀ p : Payload, sizeOf p ≤ n →
      py_startswith (p.mime.getD "") "multipart/" = true →
      extract_nested_body p = spec_node_body p) ∧
    (∀ ps : List Payload, sizeOf ps ≤ n →
      find_nested_body ps = spec_nested_search ps) := by
  intro n
  induction n using Nat.strong_induction_on with
  | _ n ih =>
    constructor
    · intro p hsz hmp
      cases p with
      | node mt b pid fn hd parts =>
        simp only [Payload.mime] at hmp
        have hszp : sizeOf parts < n := by
          have hs := Payload.node.sizeOf_spec mt b pid fn hd parts
          omega
        have ihps := (ih (sizeOf parts) hszp).2 parts (Nat.le_refl _)
        rw [extract_nested_body, spec_node_body]
        rw [if_neg (mime_multipart_not_text mt hmp), if_pos hmp]
        rw [← find_text_plain_eq_spec, ← find_text_html_eq_spec, ← ihps]
        cases hfp : find_text_plain_body parts with
        | some s =>
          rw [py_or_truthy _ _ (py_truthy_some s (find_text_plain_truthy parts s hfp))]
        | none =>
          rw [py_or_falsy _ _ py_truthy_none]
          cases hfh : find_text_html_body parts with
          | some s =>
            rw [py_or_truthy _ _ (py_truthy_some s (find_text_html_truthy parts s hfh))]
          | none =>
            rw [py_or_falsy _ _ py_truthy_none]
    · intro ps hsz
      cases ps with
      | nil => rfl
      | cons p ps2 =>
        have hs := List.cons.sizeOf_spec p ps2
        have hszp : sizeOf p < n := by omega
        have hszps : sizeOf ps2 < n := by omega
        have ihp := (ih (sizeOf p) hszp).1 p (Nat.le_refl _)
        have ihps := (ih (sizeOf ps2) hszps).2 ps2 (Nat.le_refl _)
        rw [find_nested_body, spec_nested_search]
        by_cases hmp : py_startswith (p.mime.getD "") "multipart/" = true
        · rw [if_pos hmp, if_pos hmp, ihp hmp]
          dsimp only
          cases hnp : spec_node_body p with
          | some s =>
            have hse : s ≠ "" := by
              refine extract_nested_truthy p hmp s ?_
              rw [ihp hmp, hnp]
            rw [if_pos (py_truthy_some s hse)]
          | none =>
            rw [if_neg (by rw [py_truthy_none]; simp), ihps]
        · simp only [Bool.not_eq_true] at hmp
          rw [if_neg (by simp [hmp]), if_neg (by simp [hmp]), ihps]

theorem find_nested_eq_spec (ps : List Payload) :
    find_nested_body ps = spec_nested_search ps :=
  (nested_search_code_eq_spec (sizeOf ps)).2 ps (Nat.le_refl _)

/-! ## Header parsing (`GmailEmail._parse_headers`) -/

/-- The keys of `header_mapping`, i.e. the `GmailEmail` fields fed from
headers. -/
inductive HField where
  | subject
  | from_email
  | to_email
  | cc
  | bcc
  | message_id
  | in_reply_to
  | references
  | delivered_to
deriving DecidableEq

/-- The `header_mapping` dict: lowercased header name to target field. -/
def header_mapping (n : String) : Option HField :=
  if n = "subject" then some .subject
  else if n = "from" then some .from_email
  else if n = "to" then some .to_email
  else if n = "cc" then some .cc
  else if n = "bcc" then some .bcc
  else if n = "message-id" then some .message_id
  else if n = "in-reply-to" then some .in_reply_to
  else if n = "references" then some .references
  else if n = "delivered-to" then some .delivered_to
  else none

/-- `setattr(email, header_mapping[name], value)`. -/
def set_hfield (f : HField) (e : GmailEmail) (v : String) : GmailEmail :=
  match f with
  | .subject => { e with subject := some v }
  | .from_email => { e with from_email := some v }
  | .to_email => { e with to_email := some v }
  | .cc => { e with cc := some v }
  | .bcc => { e with bcc := some v }
  | .message_id => { e with message_id := some v }
  | .in_reply_to => { e with in_reply_to := some v }
  | .references => { e with references := some v }
  | .delivered_to => { e with delivered_to := some v }

/-- Read the `GmailEmail` field addressed by a `HField`. -/
def get_hfield (f : HField) (e : GmailEmail) : Option String :=
  match f with
  | .subject => e.subject
  | .from_email => e.from_email
  | .to_email => e.to_email
  | .cc => e.cc
  | .bcc => e.bcc
  | .message_id => e.message_id
  | .in_reply_to => e.in_reply_to
  | .references => e.references
  | .delivered_to => e.delivered_to

/-- One iteration of the `for header in headers` loop. -/
def apply_header (e : GmailEmail) (h : Header) : GmailEmail :=
  match header_mapping (ascii_lower (h.name.getD "")) with
  | some f => set_hfield f e (h.value.getD "")
  | none => e

/-- `GmailEmail._parse_headers`. -/
def parse_headers (e : GmailEmail) (hs : List Header) : GmailEmail :=
  hs.foldl apply_header e

theorem get_set_hfield (f g : HField) (e : GmailEmail) (v : String) :
    get_hfield f (set_hfield g e v) = if g = f then some v else get_hfield f e := by
  cases f <;> cases g <;> simp [get_hfield, set_hfield]

theorem get_apply_header (f : HField) (e : GmailEmail) (h : Header) :
    get_hfield f (apply_header e h) =
      if header_mapping (ascii_lower (h.name.getD "")) = some f then some (h.value.getD "")
      else get_hfield f e := by
  unfold apply_header
  cases hm : header_mapping (ascii_lower (h.name.getD "")) with
  | none => simp
  | some g =>
    rw [get_set_hfield]
    by_cases hgf : g = f
    · rw [if_pos hgf, if_pos (by rw [hgf])]
    · rw [if_neg hgf, if_neg (by simp [hgf])]

theorem parse_headers_last_wins (f : HField) (e : GmailEmail) (hs : List Header) :
    get_hfield f (parse_headers e hs) =
      match (hs.filter
          (fun h => header_mapping (ascii_lower (h.name.getD "")) == some f)).getLast? with
      | some h => some (h.value.getD "")
      | none => get_hfield f e := by
  induction hs using List.reverseRecOn with
  | nil => rfl
  | append_singleton l h ih =>
    unfold parse_headers
    rw [List.foldl_append]
    show get_hfield f (apply_header (parse_headers e l) h) = _
    rw [get_apply_header, List.filter_append]
    by_cases hc : header_mapping (ascii_lower (h.name.getD "")) = some f
    · rw [if_pos hc]
      have : List.filter (fun h => header_mapping (ascii_lower (h.name.getD "")) == some f) [h]
          = [h] := by
        simp [List.filter, hc]
      rw [this, List.getLast?_concat]
    · rw [if_neg hc]
      have : List.filter (fun h => header_mapping (ascii_lower (h.name.getD "")) == some f) [h]
          = [] := by
        simp only [List.filter]
        rw [beq_eq_false_iff_ne.mpr hc]
      rw [this, List.append_nil, ih]

/-! ## Attachments and `from_api_response` -/

/-- Python dict insertion `attachments[part_id] = att`: overwrite in place or
append. -/
def dict_insert (m : List (String × GmailAttachment)) (k : String) (v : GmailAttachment) :
    List (String × GmailAttachment) :=
  if m.any (fun kv => kv.1 == k) then
    m.map (fun kv => if kv.1 == k then (k, v) else kv)
  else m ++ [(k, v)]

/-- The loop of `GmailEmail._extract_attachments_from_payload`; `part["partId"]`
raises `KeyError` when absent, modelled as `Except.error`. -/
def extract_attachments_loop :
    List Payload → List (String × GmailAttachment) → Except String (List (String × GmailAttachment))
  | [], acc => .ok acc
  | part :: ps, acc =>
    match part.bodyObj with
    | none => extract_attachments_loop ps acc
    | some b =>
      match b.attachmentId with
      | none => extract_attachments_loop ps acc
      | some aid =>
        match part.partId with
        | none => .error "KeyError: partId"
        | some pid =>
          extract_attachments_loop ps
            (dict_insert acc pid ⟨(part.fname).getD "", (part.mime).getD "", aid, pid⟩)

/-- `GmailEmail._extract_attachments_from_payload`. -/
def extract_attachments_from_payload (p : Payload) :
    Except String (List (String × GmailAttachment)) :=
  extract_attachments_loop p.parts []

/-- `GmailEmail._create_with_required_fields`. -/
def create_with_required_fields (txt : RawMessage) : GmailEmail :=
  { id := txt.id
    thread_id := txt.threadId
    history_id := txt.historyId
    internal_date := txt.internalDate
    size_estimate := txt.sizeEstimate
    label_ids := txt.labelIds.getD []
    snippet := txt.snippet
    subject := none
    from_email := none
    to_email := none
    cc := none
    bcc := none
    message_id := none
    in_reply_to := none
    references := none
    delivered_to := none
    body_html := none
    body_plain := none
    body := none
    mime_type := none
    attachments := [] }

/-- `GmailEmail.from_api_response`: builds the email, parses headers, extracts
attachments (a raised `KeyError` is caught by the surrounding `except`, giving
`None`) and resolves the body. -/
def from_api_response (txt : RawMessage) : Option GmailEmail :=
  let payload := txt.payload.getD empty_payload
  let e0 := create_with_required_fields txt
  let e1 := parse_headers e0 payload.hdrs
  match extract_attachments_from_payload payload with
  | .error _ => none
  | .ok atts => some (extract_and_set_body { e1 with attachments := atts } payload)

/-! ## Account registry (`GoogleAccountManager`) and OAuth listeners -/

/-- Modelled from the spec: the `AccountInfo` record of the repository's
`gauth` module, which is not under `src/` — `{ email (unique key),
account_type, extra_info }`. -/
structure AccountInfo where
  email : String
  account_type : String
  extra_info : String
deriving DecidableEq

/-- `GoogleAccountManager.get_account`: first account with the exact email. -/
def get_account (accs : List AccountInfo) (email : String) : Option AccountInfo :=
  accs.find? (fun a => a.email == email)

/-- `GoogleAccountManager.add_account`: raise on duplicate (registry written
only on success); the registry state is returned alongside the result. -/
def add_account (accs : List AccountInfo) (email ty extra : String) :
    Except String AccountInfo × List AccountInfo :=
  if (get_account accs email).isSome then
    (.error ("Account with email " ++ email ++ " already exists"), accs)
  else
    (.ok ⟨email, ty, extra⟩, accs ++ [⟨email, ty, extra⟩])

/-- `GoogleAccountManager.complete_account_setup`: duplicate check, then the
code-for-token exchange (`gauth.get_credentials`, not under `src/`; its
outcome is passed in as an `Except` value), then registration; an exchange
failure is re-raised as `ValueError` before `add_account` runs. -/
def complete_account_setup (accs : List AccountInfo) (email : String)
    (exchange : Except String Unit) : Except String AccountInfo × List AccountInfo :=
  if (get_account accs email).isSome then
    (.error ("Account with email " ++ email ++ " already exists"), accs)
  else
    match exchange with
    | .error msg => (.error ("Failed to complete account setup: " ++ msg), accs)
    | .ok _ => add_account accs email "user" ""

/-- A GET request hitting a callback listener: the URL path and the parsed
query parameters in order (`parse_qs` drops blank values). -/
structure HttpRequest where
  path : String
  query : List (String × String)

/-- `parse_qs(query).get(key, [None])[0]`. -/
def query_first (q : List (String × String)) (k : String) : Option String :=
  match q.find? (fun kv => kv.1 == k) with
  | some kv => some kv.2
  | none => none

/-- The class-level `OAuthCallbackHandler.callback_data` dict of
`account_manager.py`. -/
structure CallbackData where
  code : Option String
  state : Option String
  error : Option String
deriving DecidableEq

/-- `account_manager.OAuthCallbackHandler.do_GET`: responds 200 to every
request and stores the callback data unconditionally. -/
def am_do_get (req : HttpRequest) : Nat × CallbackData :=
  (200, ⟨query_first req.query "code", query_first req.query "state",
    query_first req.query "error"⟩)

/-- `GoogleAccountManager._handle_oauth_callback`: handle requests until
`callback_data` is set — a non-empty dict is truthy, so the first request
always ends the loop; a truthy `error` value raises, otherwise the code and
state (possibly `None`) are returned.  `none` means no request ever arrived. -/
def am_wait_loop (reqs : List HttpRequest) :
    Option (Except String (Option String × Option String)) :=
  match reqs with
  | [] => none
  | req :: _ =>
    let cd := (am_do_get req).2
    if py_truthy cd.error then some (.error ((cd.error).getD ""))
    else some (.ok (cd.code, cd.state))

/-- `reauthorize.OAuthCallbackHandler.do_GET`: `(status, captured code,
shutdown?)` — 404 off the root path, 400 without a `code` parameter, 200 plus
shutdown on success. -/
def rz_do_get (req : HttpRequest) : Nat × Option String × Bool :=
  if req.path ≠ "/" ∧ req.path ≠ "" then (404, none, false)
  else
    match query_first req.query "code" with
    | none => (400, none, false)
    | some c => (200, some c, true)

/-- The reauthorize script's serving loop: handle requests until a handler
shuts the server down; returns the statuses sent and the captured code. -/
def rz_serve : List HttpRequest → List Nat × Option String
  | [] => ([], none)
  | req :: rest =>
    let r := rz_do_get req
    if r.2.2 then ([r.1], r.2.1)
    else
      let tail := rz_serve rest
      (r.1 :: tail.1, tail.2)

theorem extract_multipart_fields (e : GmailEmail) (mt : Option String) (b : Option PartBody)
    (pid fn : Option String) (hd : List Header) (parts : List Payload)
    (hmp : py_startswith (mt.getD "") "multipart/" = true) :
    (extract_and_set_body e (.node mt b pid fn hd parts)).body_html
        = find_text_html_body parts ∧
    (extract_and_set_body e (.node mt b pid fn hd parts)).body_plain
        = find_text_plain_body parts ∧
    (extract_and_set_body e (.node mt b pid fn hd parts)).body
        = (if mt = some "multipart/alternative" then
            py_or (find_text_html_body parts) (py_or (find_text_plain_body parts)
              (py_or (find_nested_body parts) (find_fallback_body parts)))
          else
            py_or (find_text_plain_body parts) (py_or (find_text_html_body parts)
              (py_or (find_nested_body parts) (find_fallback_body parts)))) ∧
    (extract_and_set_body e (.node mt b pid fn hd parts)).mime_type
        = (if py_truthy ((extract_and_set_body e (.node mt b pid fn hd parts)).body) then
            (if (extract_and_set_body e (.node mt b pid fn hd parts)).body
                = find_text_html_body parts then some "text/html"
             else if (extract_and_set_body e (.node mt b pid fn hd parts)).body
                = find_text_plain_body parts then some "text/plain"
             else mt)
          else e.mime_type) := by
  have hne := mime_multipart_not_text mt hmp
  unfold extract_and_set_body
  simp only [Payload.mime, Payload.parts]
  rw [if_neg (fun hc => hne (Or.inl hc)), if_neg (fun hc => hne (Or.inr hc)), if_pos hmp]
  by_cases ht : py_truthy (if mt = some "multipart/alternative" then
      py_or (find_text_html_body parts) (py_or (find_text_plain_body parts)
        (py_or (find_nested_body parts) (find_fallback_body parts)))
    else
      py_or (find_text_plain_body parts) (py_or (find_text_html_body parts)
        (py_or (find_nested_body parts) (find_fallback_body parts)))) = true
  · rw [if_pos ht]
    refine ⟨rfl, rfl, rfl, ?_⟩
    rw [if_pos ht]
  · rw [if_neg ht]
    refine ⟨rfl, rfl, rfl, ?_⟩
    rw [if_neg ht]

/-! ## Claim theorems -/

/-- A `GmailEmail` with every field unset, used for concrete evaluations. -/
def empty_email : GmailEmail :=
  { id := none, thread_id := none, history_id := none, internal_date := none,
    size_estimate := none, label_ids := [], snippet := none, subject := none,
    from_email := none, to_email := none, cc := none, bcc := none, message_id := none,
    in_reply_to := none, references := none, delivered_to := none, body_html := none,
    body_plain := none, body := none, mime_type := none, attachments := [] }

/-- C1: for a payload whose MIME type is exactly `multipart/alternative`, the
chosen body is `body_html` (the first decodable `text/html` immediate child)
when one exists, else `body_plain` (the first decodable `text/plain`
immediate child), else the result of the depth-first nested search over the
immediate multipart children (first match wins, preferring plain then html at
each nested level — `find_nested_body` coincides with that search), else the
decoded payload of the first child. -/
theorem c1_alternative_body_priority (e : GmailEmail) (b : Option PartBody)
    (pid fn : Option String) (hd : List Header) (parts : List Payload) :
    (extract_and_set_body e (.node (some "multipart/alternative") b pid fn hd parts)).body_html
        = spec_first_decodable "text/html" parts ∧
    (extract_and_set_body e (.node (some "multipart/alternative") b pid fn hd parts)).body_plain
        = spec_first_decodable "text/plain" parts ∧
    find_nested_body parts = spec_nested_search parts ∧
    (extract_and_set_body e (.node (some "multipart/alternative") b pid fn hd parts)).body
        = (match spec_first_decodable "text/html" parts with
          | some v => some v
          | none =>
            match spec_first_decodable "text/plain" parts with
            | some v => some v
            | none =>
              match spec_nested_search parts with
              | some v => some v
              | none => find_fallback_body parts) := by
  obtain ⟨h1, h2, h3, _⟩ :=
    extract_multipart_fields e (some "multipart/alternative") b pid fn hd parts (by decide)
  refine ⟨by rw [h1, find_text_html_eq_spec], by rw [h2, find_text_plain_eq_spec],
    find_nested_eq_spec parts, ?_⟩
  rw [h3, if_pos rfl]
  rw [← find_text_html_eq_spec, ← find_text_plain_eq_spec, ← find_nested_eq_spec]
  cases hfh : find_text_html_body parts with
  | some s =>
    rw [py_or_truthy _ _ (py_truthy_some s (find_text_html_truthy parts s hfh))]
  | none =>
    rw [py_or_falsy _ _ py_truthy_none]
    cases hfp : find_text_plain_body parts with
    | some s =>
      rw [py_or_truthy _ _ (py_truthy_some s (find_text_plain_truthy parts s hfp))]
    | none =>
      rw [py_or_falsy _ _ py_truthy_none]
      cases hfn : find_nested_body parts with
      | some s =>
        rw [py_or_truthy _ _ (py_truthy_some s (find_nested_truthy parts s hfn))]
      | none =>
        rw [py_or_falsy _ _ py_truthy_none]

/-- C2: for a payload whose MIME type starts with `multipart/` but is not
`multipart/alternative` (e.g. `multipart/mixed`, `multipart/related`), the
chosen body is `body_plain` when a decodable `text/plain` immediate child
exists, else `body_html`, else the nested search result, else the decoded
payload of the first child. -/
theorem c2_mixed_body_priority (e : GmailEmail) (mt : Option String) (b : Option PartBody)
    (pid fn : Option String) (hd : List Header) (parts : List Payload)
    (hmp : py_startswith (mt.getD "") "multipart/" = true)
    (halt : mt ≠ some "multipart/alternative") :
    (extract_and_set_body e (.node mt b pid fn hd parts)).body_html
        = spec_first_decodable "text/html" parts ∧
    (extract_and_set_body e (.node mt b pid fn hd parts)).body_plain
        = spec_first_decodable "text/plain" parts ∧
    find_nested_body parts = spec_nested_search parts ∧
    (extract_and_set_body e (.node mt b pid fn hd parts)).body
        = (match spec_first_decodable "text/plain" parts with
          | some v => some v
          | none =>
            match spec_first_decodable "text/html" parts with
            | some v => some v
            | none =>
              match spec_nested_search parts with
              | some v => some v
              | none => find_fallback_body parts) := by
  obtain ⟨h1, h2, h3, _⟩ := extract_multipart_fields e mt b pid fn hd parts hmp
  refine ⟨by rw [h1, find_text_html_eq_spec], by rw [h2, find_text_plain_eq_spec],
    find_nested_eq_spec parts, ?_⟩
  rw [h3, if_neg halt]
  rw [← find_text_html_eq_spec, ← find_text_plain_eq_spec, ← find_nested_eq_spec]
  cases hfp : find_text_plain_body parts with
  | some s =>
    rw [py_or_truthy _ _ (py_truthy_some s (find_text_plain_truthy parts s hfp))]
  | none =>
    rw [py_or_falsy _ _ py_truthy_none]
    cases hfh : find_text_html_body parts with
    | some s =>
      rw [py_or_truthy _ _ (py_truthy_some s (find_text_html_truthy parts s hfh))]
    | none =>
      rw [py_or_falsy _ _ py_truthy_none]
      cases hfn : find_nested_body parts with
      | some s =>
        rw [py_or_truthy _ _ (py_truthy_some s (find_nested_truthy parts s hfn))]
      | none =>
        rw [py_or_falsy _ _ py_truthy_none]

/-- Witness for C2 at a concrete `multipart/mixed` payload holding one
decodable `text/plain` child ("hi", base64url `aGk=`) and one decodable
`text/html` child ("<b>x</b>", base64url `PGI-eDwvYj4=`): the chosen body is
the plain text. -/
theorem c2_mixed_body_priority_witness :
    (extract_and_set_body empty_email (.node (some "multipart/mixed") none none none []
        [.node (some "text/html") (some ⟨some "PGI-eDwvYj4=", none⟩) none none [] [],
          .node (some "text/plain") (some ⟨some "aGk=", none⟩) none none [] []])).body_html
        = spec_first_decodable "text/html"
            [.node (some "text/html") (some ⟨some "PGI-eDwvYj4=", none⟩) none none [] [],
              .node (some "text/plain") (some ⟨some "aGk=", none⟩) none none [] []] ∧
    (extract_and_set_body empty_email (.node (some "multipart/mixed") none none none []
        [.node (some "text/html") (some ⟨some "PGI-eDwvYj4=", none⟩) none none [] [],
          .node (some "text/plain") (some ⟨some "aGk=", none⟩) none none [] []])).body_plain
        = spec_first_decodable "text/plain"
            [.node (some "text/html") (some ⟨some "PGI-eDwvYj4=", none⟩) none none [] [],
              .node (some "text/plain") (some ⟨some "aGk=", none⟩) none none [] []] ∧
    find_nested_body
        [.node (some "text/html") (some ⟨some "PGI-eDwvYj4=", none⟩) none none [] [],
          .node (some "text/plain") (some ⟨some "aGk=", none⟩) none none [] []]
        = spec_nested_search
            [.node (some "text/html") (some ⟨some "PGI-eDwvYj4=", none⟩) none none [] [],
              .node (some "text/plain") (some ⟨some "aGk=", none⟩) none none [] []] ∧
    (extract_and_set_body empty_email (.node (some "multipart/mixed") none none none []
        [.node (some "text/html") (some ⟨some "PGI-eDwvYj4=", none⟩) none none [] [],
          .node (some "text/plain") (some ⟨some "aGk=", none⟩) none none [] []])).body
        = (match spec_first_decodable "text/plain"
            [.node (some "text/html") (some ⟨some "PGI-eDwvYj4=", none⟩) none none [] [],
              .node (some "text/plain") (some ⟨some "aGk=", none⟩) none none [] []] with
          | some v => some v
          | none =>
            match spec_first_decodable "text/html"
                [.node (some "text/html") (some ⟨some "PGI-eDwvYj4=", none⟩) none none [] [],
                  .node (some "text/plain") (some ⟨some "aGk=", none⟩) none none [] []] with
            | some v => some v
            | none =>
              match spec_nested_search
                  [.node (some "text/html") (some ⟨some "PGI-eDwvYj4=", none⟩) none none [] [],
                    .node (some "text/plain") (some ⟨some "aGk=", none⟩) none none [] []] with
              | some v => some v
              | none => find_fallback_body
                  [.node (some "text/html") (some ⟨some "PGI-eDwvYj4=", none⟩) none none [] [],
                    .node (some "text/plain") (some ⟨some "aGk=", none⟩) none none [] []]) :=
  c2_mixed_body_priority empty_email (some "multipart/mixed") none none none []
    [.node (some "text/html") (some ⟨some "PGI-eDwvYj4=", none⟩) none none [] [],
      .node (some "text/plain") (some ⟨some "aGk=", none⟩) none none [] []]
    (by decide) (by decide)

theorem decode_hi : decode_body_data (some "aGk=") = some "hi" := by decide

theorem decode_fail_A : decode_body_data (some "A") = none := by decide

/-- The C3 counterexample tree: a `multipart/mixed` whose only child is a
`multipart/alternative` holding one decodable `text/plain` part. -/
def c3_tree : Payload :=
  .node (some "multipart/mixed") none none none []
    [.node (some "multipart/alternative") none none none []
      [.node (some "text/plain") (some ⟨some "aGk=", none⟩) none none [] []]]

/-- C3 counterexample: on `c3_tree` the body is supplied by the nested
search (both `body_html` and `body_plain` are unset), yet `mime_type` is the
*parent's* declared type `multipart/mixed`, not the nested node's own type
(`multipart/alternative` for the multipart child, `text/plain` for the text
node that actually supplied the body), refuting the claim as stated. -/
theorem c3_counterexample :
    (extract_and_set_body empty_email c3_tree).body = some "hi" ∧
    (extract_and_set_body empty_email c3_tree).body_html = none ∧
    (extract_and_set_body empty_email c3_tree).body_plain = none ∧
    (extract_and_set_body empty_email c3_tree).body = spec_nested_search c3_tree.parts ∧
    (extract_and_set_body empty_email c3_tree).mime_type = some "multipart/mixed" ∧
    (some "multipart/mixed" : Option String) ≠ some "multipart/alternative" ∧
    (some "multipart/mixed" : Option String) ≠ some "text/plain" := by
  decide

/-- C3 (amended): for a multipart payload, when a (truthy) body was chosen,
`mime_type` is `text/html` when the body equals `body_html`, `text/plain`
when it instead equals `body_plain`, and otherwise — the nested-search and
first-child-fallback paths — it is the *parent payload's own declared MIME
type*; when no truthy body was chosen `mime_type` is left unchanged. -/
theorem c3_mime_type_amended (e : GmailEmail) (mt : Option String) (b : Option PartBody)
    (pid fn : Option String) (hd : List Header) (parts : List Payload)
    (hmp : py_startswith (mt.getD "") "multipart/" = true) :
    (py_truthy (extract_and_set_body e (.node mt b pid fn hd parts)).body = true →
      ((extract_and_set_body e (.node mt b pid fn hd parts)).body
          = (extract_and_set_body e (.node mt b pid fn hd parts)).body_html →
        (extract_and_set_body e (.node mt b pid fn hd parts)).mime_type = some "text/html") ∧
      ((extract_and_set_body e (.node mt b pid fn hd parts)).body
          ≠ (extract_and_set_body e (.node mt b pid fn hd parts)).body_html →
        (extract_and_set_body e (.node mt b pid fn hd parts)).body
          = (extract_and_set_body e (.node mt b pid fn hd parts)).body_plain →
        (extract_and_set_body e (.node mt b pid fn hd parts)).mime_type = some "text/plain") ∧
      ((extract_and_set_body e (.node mt b pid fn hd parts)).body
          ≠ (extract_and_set_body e (.node mt b pid fn hd parts)).body_html →
        (extract_and_set_body e (.node mt b pid fn hd parts)).body
          ≠ (extract_and_set_body e (.node mt b pid fn hd parts)).body_plain →
        (extract_and_set_body e (.node mt b pid fn hd parts)).mime_type = mt)) ∧
    (py_truthy (extract_and_set_body e (.node mt b pid fn hd parts)).body = false →
      (extract_and_set_body e (.node mt b pid fn hd parts)).mime_type = e.mime_type) := by
  obtain ⟨h1, h2, _, h4⟩ := extract_multipart_fields e mt b pid fn hd parts hmp
  rw [← h1, ← h2] at h4
  constructor
  · intro htr
    refine ⟨?_, ?_, ?_⟩
    · intro hbh
      rw [h4, if_pos htr, if_pos hbh]
    · intro hneh hbp
      rw [h4, if_pos htr, if_neg hneh, if_pos hbp]
    · intro hneh hnep
      rw [h4, if_pos htr, if_neg hneh, if_neg hnep]
  · intro hf
    rw [h4, if_neg (by rw [hf]; simp)]

/-- Witness for C3's amended theorem at `c3_tree`: the body is truthy and
matches neither `body_html` nor `body_plain`, so `mime_type` is the parent's
type `multipart/mixed`. -/
theorem c3_mime_type_amended_witness :
    py_truthy (extract_and_set_body empty_email c3_tree).body = true ∧
    (extract_and_set_body empty_email c3_tree).mime_type = some "multipart/mixed" :=
  ⟨by decide,
    ((c3_mime_type_amended empty_email (some "multipart/mixed") none none none []
        [.node (some "multipart/alternative") none none none []
          [.node (some "text/plain") (some ⟨some "aGk=", none⟩) none none [] []]]
        (by decide)).1 (by decide)).2.2 (by decide) (by decide)⟩

/-! ## Field-preservation lemmas for header parsing -/

theorem apply_header_preserves (e : GmailEmail) (h : Header) :
    (apply_header e h).id = e.id ∧ (apply_header e h).snippet = e.snippet ∧
    (apply_header e h).body_html = e.body_html := by
  unfold apply_header
  cases header_mapping (ascii_lower (h.name.getD "")) with
  | none => exact ⟨rfl, rfl, rfl⟩
  | some f => cases f <;> exact ⟨rfl, rfl, rfl⟩

theorem parse_headers_preserves (hs : List Header) : ∀ e : GmailEmail,
    (parse_headers e hs).id = e.id ∧ (parse_headers e hs).snippet = e.snippet ∧
    (parse_headers e hs).body_html = e.body_html := by
  induction hs with
  | nil => exact fun e => ⟨rfl, rfl, rfl⟩
  | cons h hs ih =>
    intro e
    show (parse_headers (apply_header e h) hs).id = e.id ∧
      (parse_headers (apply_header e h) hs).snippet = e.snippet ∧
      (parse_headers (apply_header e h) hs).body_html = e.body_html
    obtain ⟨p1, p2, p3⟩ := apply_header_preserves e h
    obtain ⟨i1, i2, i3⟩ := ih (apply_header e h)
    exact ⟨by rw [i1, p1], by rw [i2, p2], by rw [i3, p3]⟩

/-- C4: body extraction is total and failure-safe — for any raw message whose
payload is a `text/plain` part carrying body data that fails to decode, the
message still parses (`from_api_response` returns a record whose identity and
header fields are intact) while `body_plain`/`body` are simply left unset;
and a part with undecodable data is skipped by the child scans, which
continue with the remaining parts. -/
theorem c4_decode_failure_safe (txt : RawMessage) (d : String) (hdrs : List Header)
    (hp : txt.payload = some (.node (some "text/plain") (some ⟨some d, none⟩) none none hdrs []))
    (hfail : decode_body_data (some d) = none) :
    (∃ e : GmailEmail, from_api_response txt = some e ∧
      e.body_plain = none ∧ e.body = none ∧ e.body_html = none ∧
      e.mime_type = some "text/plain" ∧ e.id = txt.id ∧ e.snippet = txt.snippet ∧
      e.subject = (parse_headers (create_with_required_fields txt) hdrs).subject) ∧
    (∀ ps : List Payload,
      find_text_plain_body
          (.node (some "text/plain") (some ⟨some d, none⟩) none none [] [] :: ps)
        = find_text_plain_body ps) ∧
    (∀ ps : List Payload,
      find_text_html_body
          (.node (some "text/html") (some ⟨some d, none⟩) none none [] [] :: ps)
        = find_text_html_body ps) := by
  refine ⟨?_, ?_, ?_⟩
  · have hfar : from_api_response txt =
        some (extract_and_set_body
          { parse_headers (create_with_required_fields txt) hdrs with attachments := [] }
          (.node (some "text/plain") (some ⟨some d, none⟩) none none hdrs [])) := by
      unfold from_api_response
      rw [hp]
      rfl
    have hext : extract_and_set_body
        { parse_headers (create_with_required_fields txt) hdrs with attachments := [] }
        (.node (some "text/plain") (some ⟨some d, none⟩) none none hdrs [])
        = { parse_headers (create_with_required_fields txt) hdrs with
              attachments := [],
              body_plain := none,
              body := none,
              mime_type := some "text/plain" } := by
      unfold extract_and_set_body
      rw [if_pos (show Payload.mime (.node (some "text/plain") (some ⟨some d, none⟩)
        none none hdrs []) = some "text/plain" from rfl)]
      rw [show Payload.bodyData (.node (some "text/plain") (some ⟨some d, none⟩)
        none none hdrs []) = some d from rfl]
      rw [hfail]
    rw [hfar, hext]
    obtain ⟨pid2, psn, pbh⟩ := parse_headers_preserves hdrs (create_with_required_fields txt)
    refine ⟨_, rfl, rfl, rfl, ?_, rfl, ?_, ?_, rfl⟩
    · show (parse_headers (create_with_required_fields txt) hdrs).body_html = none
      rw [pbh]
      rfl
    · show (parse_headers (create_with_required_fields txt) hdrs).id = txt.id
      rw [pid2]
      rfl
    · show (parse_headers (create_with_required_fields txt) hdrs).snippet = txt.snippet
      rw [psn]
      rfl
  · intro ps
    rw [find_text_plain_body]
    rw [if_pos (show Payload.mime (.node (some "text/plain") (some ⟨some d, none⟩)
      none none [] []) = some "text/plain" from rfl)]
    dsimp only
    rw [show Payload.bodyData (.node (some "text/plain") (some ⟨some d, none⟩)
      none none [] []) = some d from rfl, hfail]
    rfl
  · intro ps
    rw [find_text_html_body]
    rw [if_pos (show Payload.mime (.node (some "text/html") (some ⟨some d, none⟩)
      none none [] []) = some "text/html" from rfl)]
    dsimp only
    rw [show Payload.bodyData (.node (some "text/html") (some ⟨some d, none⟩)
      none none [] []) = some d from rfl, hfail]
    rfl

/-- Witness for C4 at the undecodable base64url datum `"A"` (one data
character cannot complete a base64 group, so `binascii` raises) inside a
message that still carries an id, a snippet and a Subject header. -/
theorem c4_decode_failure_safe_witness :
    decode_body_data (some "A") = none ∧
    ((∃ e : GmailEmail,
      from_api_response
        ⟨some "m1", some "t1", none, none, none, none, some "snip",
          some (.node (some "text/plain") (some ⟨some "A", none⟩) none none
            [⟨some "Subject", some "Hello"⟩] [])⟩ = some e ∧
      e.body_plain = none ∧ e.body = none ∧ e.body_html = none ∧
      e.mime_type = some "text/plain" ∧
      e.id = RawMessage.id ⟨some "m1", some "t1", none, none, none, none, some "snip",
          some (.node (some "text/plain") (some ⟨some "A", none⟩) none none
            [⟨some "Subject", some "Hello"⟩] [])⟩ ∧
      e.snippet = RawMessage.snippet ⟨some "m1", some "t1", none, none, none, none, some "snip",
          some (.node (some "text/plain") (some ⟨some "A", none⟩) none none
            [⟨some "Subject", some "Hello"⟩] [])⟩ ∧
      e.subject = (parse_headers (create_with_required_fields
          ⟨some "m1", some "t1", none, none, none, none, some "snip",
            some (.node (some "text/plain") (some ⟨some "A", none⟩) none none
              [⟨some "Subject", some "Hello"⟩] [])⟩)
          [⟨some "Subject", some "Hello"⟩]).subject) ∧
    (∀ ps : List Payload,
      find_text_plain_body
          (.node (some "text/plain") (some ⟨some "A", none⟩) none none [] [] :: ps)
        = find_text_plain_body ps) ∧
    (∀ ps : List Payload,
      find_text_html_body
          (.node (some "text/html") (some ⟨some "A", none⟩) none none [] [] :: ps)
        = find_text_html_body ps)) :=
  ⟨by decide,
    c4_decode_failure_safe
      ⟨some "m1", some "t1", none, none, none, none, some "snip",
        some (.node (some "text/plain") (some ⟨some "A", none⟩) none none
          [⟨some "Subject", some "Hello"⟩] [])⟩
      "A" [⟨some "Subject", some "Hello"⟩] rfl (by decide)⟩

/-- C5 counterexample: the account-manager listener
(`account_manager.OAuthCallbackHandler.do_GET` plus
`GoogleAccountManager._handle_oauth_callback`) answers a GET for
`/favicon.ico` with status 200 — not a not-found status — and its wait loop
returns (shuts down) after that single request even though no `code`
parameter was ever received, refuting the claim as stated. -/
theorem c5_counterexample :
    am_do_get ⟨"/favicon.ico", []⟩ = (200, ⟨none, none, none⟩) ∧
    (200 : Nat) ≠ 404 ∧
    am_wait_loop [⟨"/favicon.ico", []⟩] = some (.ok (none, none)) := by
  refine ⟨rfl, by decide, rfl⟩

/-- C5 (amended): the reauthorize-script listener
(`reauthorize.OAuthCallbackHandler.do_GET`) behaves as the claim states —
404 off the root path without capturing or shutting down, 400 on a root GET
without a `code` parameter without shutting down, and 200 plus shutdown with
the captured code exactly on the first root GET carrying one, with the serve
loop continuing past every non-successful request; the account-manager
listener instead answers 200 to every GET and its wait loop ends at the
first request regardless of path or parameters. -/
theorem c5_listener_amended :
    (∀ req : HttpRequest, req.path ≠ "/" → req.path ≠ "" →
      rz_do_get req = (404, none, false)) ∧
    (∀ req : HttpRequest, (req.path = "/" ∨ req.path = "") →
      query_first req.query "code" = none → rz_do_get req = (400, none, false)) ∧
    (∀ req : HttpRequest, ∀ c : String, (req.path = "/" ∨ req.path = "") →
      query_first req.query "code" = some c → rz_do_get req = (200, some c, true)) ∧
    (∀ req : HttpRequest, ∀ rest : List HttpRequest, (rz_do_get req).2.2 = false →
      rz_serve (req :: rest) = ((rz_do_get req).1 :: (rz_serve rest).1, (rz_serve rest).2)) ∧
    (∀ req : HttpRequest, ∀ rest : List HttpRequest, (rz_do_get req).2.2 = true →
      rz_serve (req :: rest) = ([(rz_do_get req).1], (rz_do_get req).2.1)) ∧
    (∀ req : HttpRequest, (am_do_get req).1 = 200) ∧
    (∀ req : HttpRequest, ∀ rest : List HttpRequest, am_wait_loop (req :: rest) ≠ none) := by
  refine ⟨?_, ?_, ?_, ?_, ?_, ?_, ?_⟩
  · intro req h1 h2
    unfold rz_do_get
    rw [if_pos ⟨h1, h2⟩]
  · intro req hroot hcode
    unfold rz_do_get
    rw [if_neg (by rintro ⟨hA, hB⟩; rcases hroot with h | h; exacts [hA h, hB h]), hcode]
  · intro req c hroot hcode
    unfold rz_do_get
    rw [if_neg (by rintro ⟨hA, hB⟩; rcases hroot with h | h; exacts [hA h, hB h]), hcode]
  · intro req rest hf
    conv_lhs => rw [rz_serve]
    simp only [hf]
    rfl
  · intro req rest ht
    conv_lhs => rw [rz_serve]
    simp only [ht]
    rfl
  · intro req
    rfl
  · intro req rest
    show (if py_truthy (am_do_get req).2.error = true then
        some (Except.error (((am_do_get req).2.error).getD ""))
      else some (Except.ok ((am_do_get req).2.code, (am_do_get req).2.state))) ≠ none
    split <;> simp

/-- Witness for C5's amended theorem at three concrete requests: a
non-root GET gets 404, a root GET without a code gets 400 and does not shut
the listener down, and a root GET with `code=abc` gets 200, captures the
code and shuts down. -/
theorem c5_listener_amended_witness :
    rz_do_get ⟨"/favicon.ico", []⟩ = (404, none, false) ∧
    rz_do_get ⟨"/", [("state", "xyz")]⟩ = (400, none, false) ∧
    rz_do_get ⟨"/", [("code", "abc"), ("state", "xyz")]⟩ = (200, some "abc", true) ∧
    rz_serve [⟨"/", [("state", "xyz")]⟩] = ([400], none) :=
  ⟨c5_listener_amended.1 ⟨"/favicon.ico", []⟩ (by decide) (by decide),
    c5_listener_amended.2.1 ⟨"/", [("state", "xyz")]⟩ (Or.inl rfl) rfl,
    c5_listener_amended.2.2.1 ⟨"/", [("code", "abc"), ("state", "xyz")]⟩ "abc" (Or.inl rfl) rfl,
    by
      rw [c5_listener_amended.2.2.2.1 ⟨"/", [("state", "xyz")]⟩ [] rfl]
      rfl⟩

/-- C6 counterexample: with two `subject` headers (differing only in case)
the parsed subject is the value of the *second* (last) occurrence, refuting
"first occurrence wins". -/
theorem c6_counterexample :
    (parse_headers empty_email
        [⟨some "Subject", some "first"⟩, ⟨some "subject", some "second"⟩]).subject
      = some "second" ∧
    (some "second" : Option String) ≠ some "first" := by
  refine ⟨rfl, by decide⟩

/-- C6 (amended): for each of the nine mapped header fields, the parsed value
is that of the *last* occurrence (name compared case-insensitively) in the
header list — the loop's `setattr` overwrites earlier matches — and the field
keeps its previous value when no occurrence exists. -/
theorem c6_headers_last_wins (f : HField) (e : GmailEmail) (hs : List Header) :
    get_hfield f (parse_headers e hs) =
      match (hs.filter
          (fun h => header_mapping (ascii_lower (h.name.getD "")) == some f)).getLast? with
      | some h => some (h.value.getD "")
      | none => get_hfield f e :=
  parse_headers_last_wins f e hs

/-- C7: adding an email already present in the registry (exact match) fails
with the duplicate-account error and leaves the registry unchanged (same
accounts, hence same size); `add_account` raises before any write. -/
theorem c7_duplicate_add (accs : List AccountInfo) (email ty extra : String) (a : AccountInfo)
    (h : get_account accs email = some a) :
    (∃ msg, (add_account accs email ty extra).1 = .error msg) ∧
    (add_account accs email ty extra).2 = accs ∧
    ((add_account accs email ty extra).2).length = accs.length := by
  unfold add_account
  rw [if_pos (by rw [h]; rfl)]
  exact ⟨⟨_, rfl⟩, rfl, rfl⟩

/-- Witness for C7: adding `a@x.com` to a registry already holding it. -/
theorem c7_duplicate_add_witness :
    get_account [⟨"a@x.com", "user", ""⟩] "a@x.com" = some ⟨"a@x.com", "user", ""⟩ ∧
    ((∃ msg, (add_account [⟨"a@x.com", "user", ""⟩] "a@x.com" "user" "").1 = .error msg) ∧
      (add_account [⟨"a@x.com", "user", ""⟩] "a@x.com" "user" "").2
        = [⟨"a@x.com", "user", ""⟩] ∧
      ((add_account [⟨"a@x.com", "user", ""⟩] "a@x.com" "user" "").2).length
        = [(⟨"a@x.com", "user", ""⟩ : AccountInfo)].length) :=
  ⟨by decide,
    c7_duplicate_add [⟨"a@x.com", "user", ""⟩] "a@x.com" "user" "" ⟨"a@x.com", "user", ""⟩
      (by decide)⟩

/-- A raw message with every field missing, for the C8 counterexample. -/
def empty_raw : RawMessage :=
  ⟨none, none, none, none, none, none, none, none⟩

/-- C8 counterexample: on a raw object missing both `id` and `payload`,
`from_api_response` does not return an absent result — it returns a
`GmailEmail` with every field unset — refuting the claim as stated. -/
theorem c8_counterexample :
    from_api_response empty_raw = some empty_email ∧
    from_api_response empty_raw ≠ none := by
  refine ⟨rfl, ?_⟩
  intro hc
  rw [show from_api_response empty_raw = some empty_email from rfl] at hc
  exact Option.noConfusion hc

/-- C8 (amended): on a raw message missing both `id` and `payload`,
`from_api_response` returns (without error) a `GmailEmail` whose `id`, body
fields, `mime_type` and attachments are unset while the other metadata
fields carry over. -/
theorem c8_missing_fields_amended (txt : RawMessage) (hid : txt.id = none)
    (hp : txt.payload = none) :
    ∃ e : GmailEmail, from_api_response txt = some e ∧ e.id = none ∧ e.body = none ∧
      e.body_plain = none ∧ e.body_html = none ∧ e.mime_type = none ∧
      e.attachments = [] ∧ e.thread_id = txt.threadId ∧ e.snippet = txt.snippet := by
  have hfar : from_api_response txt
      = some { create_with_required_fields txt with attachments := [] } := by
    unfold from_api_response
    rw [hp]
    rfl
  rw [hfar]
  exact ⟨_, rfl, hid, rfl, rfl, rfl, rfl, rfl, rfl, rfl⟩

/-- Witness for C8's amended theorem at the all-absent raw object. -/
theorem c8_missing_fields_amended_witness :
    empty_raw.id = none ∧
    (∃ e : GmailEmail, from_api_response empty_raw = some e ∧ e.id = none ∧ e.body = none ∧
      e.body_plain = none ∧ e.body_html = none ∧ e.mime_type = none ∧
      e.attachments = [] ∧ e.thread_id = empty_raw.threadId ∧ e.snippet = empty_raw.snippet) :=
  ⟨rfl, c8_missing_fields_amended empty_raw rfl rfl⟩

/-- C9 counterexample: for the empty string the base64url encoding is `""`,
which `_decode_body_data` treats as falsy, so a single `text/plain` node
carrying it yields `body_plain = None` rather than the original `""` — the
round-trip fails at `s = ""`. -/
theorem c9_counterexample :
    b64_encode_string (utf8_encode "") = "" ∧
    (extract_and_set_body empty_email (.node (some "text/plain")
        (some ⟨some (b64_encode_string (utf8_encode "")), none⟩) none none [] [])).body_plain
      = none ∧
    (none : Option String) ≠ some "" := by
  refine ⟨rfl, rfl, by decide⟩

/-- C9 (amended): for every non-empty string, resolving a single `text/plain`
node whose body data is the base64url encoding of the string's UTF-8 bytes
yields exactly that string as `body_plain` and as the chosen `body` — decode
is a left inverse of encode away from the falsy empty input. -/
theorem c9_roundtrip_nonempty (s : String) (hs : s ≠ "") :
    (extract_and_set_body empty_email (.node (some "text/plain")
        (some ⟨some (b64_encode_string (utf8_encode s)), none⟩) none none [] [])).body_plain
      = some s ∧
    (extract_and_set_body empty_email (.node (some "text/plain")
        (some ⟨some (b64_encode_string (utf8_encode s)), none⟩) none none [] [])).body
      = some s ∧
    (extract_and_set_body empty_email (.node (some "text/plain")
        (some ⟨some (b64_encode_string (utf8_encode s)), none⟩) none none [] [])).mime_type
      = some "text/plain" := by
  have hext : extract_and_set_body empty_email (.node (some "text/plain")
      (some ⟨some (b64_encode_string (utf8_encode s)), none⟩) none none [] [])
      = { empty_email with
            body_plain := decode_body_data (some (b64_encode_string (utf8_encode s))),
            body := decode_body_data (some (b64_encode_string (utf8_encode s))),
            mime_type := some "text/plain" } := by
    unfold extract_and_set_body
    rw [if_pos (show Payload.mime (.node (some "text/plain")
      (some ⟨some (b64_encode_string (utf8_encode s)), none⟩) none none [] [])
        = some "text/plain" from rfl)]
    rfl
  rw [hext, decode_body_data_roundtrip s hs]
  exact ⟨rfl, rfl, rfl⟩

/-- Witness for C9's amended theorem at `s = "hi"` (data `aGk=`). -/
theorem c9_roundtrip_nonempty_witness :
    ("hi" : String) ≠ "" ∧
    ((extract_and_set_body empty_email (.node (some "text/plain")
        (some ⟨some (b64_encode_string (utf8_encode "hi")), none⟩) none none [] [])).body_plain
      = some "hi" ∧
    (extract_and_set_body empty_email (.node (some "text/plain")
        (some ⟨some (b64_encode_string (utf8_encode "hi")), none⟩) none none [] [])).body
      = some "hi" ∧
    (extract_and_set_body empty_email (.node (some "text/plain")
        (some ⟨some (b64_encode_string (utf8_encode "hi")), none⟩) none none [] [])).mime_type
      = some "text/plain") :=
  ⟨by decide, c9_roundtrip_nonempty "hi" (by decide)⟩

/-- C10: for an email not yet registered, when the code-for-token exchange
fails, `complete_account_setup` raises (a `ValueError` wrapping the failure)
and the registry is unchanged — the account is registered only after a
successful exchange. -/
theorem c10_failed_exchange (accs : List AccountInfo) (email msg : String)
    (hnew : get_account accs email = none) :
    (∃ m, (complete_account_setup accs email (.error msg)).1 = .error m) ∧
    (complete_account_setup accs email (.error msg)).2 = accs := by
  unfold complete_account_setup
  rw [if_neg (by rw [hnew]; simp)]
  exact ⟨⟨_, rfl⟩, rfl⟩

/-- Witness for C10: a failing exchange (`invalid_grant`) for a new email on
an empty registry raises and leaves the registry empty. -/
theorem c10_failed_exchange_witness :
    get_account [] "a@x.com" = none ∧
    ((∃ m, (complete_account_setup [] "a@x.com" (.error "invalid_grant")).1 = .error m) ∧
      (complete_account_setup [] "a@x.com" (.error "invalid_grant")).2 = []) :=
  ⟨rfl, c10_failed_exchange [] "a@x.com" "invalid_grant" rfl⟩
